import Mathlib

/-!
# go-filelock: a shallow embedding of `filelock.go`

The three public operations of the package (`Lock`, `FileLock.Unlock`, `Exists`)
and the two helpers `lock` and `unlock` are translated to state-passing Lean
functions over an explicit model of the operating system: a file namespace with
marker files (content and fcntl record-lock owner) and directories.

Calls into the operating system can fail for reasons outside the modelled
state (permissions, a full disk, a bad descriptor); such failures are inputs of
the operations, collected in `Env`, also where the package ignores the error.  What other
processes do in the window between the existence probe of `Lock` and its
`os.OpenFile` is an input too (`Env.race`).  Log output is not modelled.
-/

namespace Filelock

/-! ## Go values -/

/-- A file path, as the list of its components (`filepath.Join` order). -/
abbrev Path := List String

/-- How a path is printed in error messages. -/
def Path.render (p : Path) : String := "/".intercalate p

/-- Go `error` values that this package can see: `errors.New` strings,
`syscall.Errno` numbers, `*os.PathError` and the wrapper `fmt.Errorf` builds
for a `%w` operand.  A nil error is `none : Option GoError`. -/
inductive GoError where
  | errorString (s : String)
  | errno (code : Nat)
  | pathError (op : String) (path : Path) (err : GoError)
  | wrapError (msg : String) (err : GoError)
  deriving DecidableEq, Repr

/-- Texts of `syscall.Errno` on linux for the numbers 1 to 40. -/
def errnoTexts : List String :=
  ["operation not permitted", "no such file or directory", "no such process",
    "interrupted system call", "input/output error", "no such device or address",
    "argument list too long", "exec format error", "bad file descriptor",
    "no child processes", "resource temporarily unavailable", "cannot allocate memory",
    "permission denied", "bad address", "block device required", "device or resource busy",
    "file exists", "invalid cross-device link", "no such device", "not a directory",
    "is a directory", "invalid argument", "too many open files in system",
    "too many open files", "inappropriate ioctl for device", "text file busy",
    "file too large", "no space left on device", "illegal seek", "read-only file system",
    "too many links", "broken pipe", "numerical argument out of domain",
    "numerical result out of range", "resource deadlock avoided", "file name too long",
    "no locks available", "function not implemented", "directory not empty",
    "too many levels of symbolic links"]

/-- The method `Error()` of `syscall.Errno`: the text of the table, and
`errno N` for a number that has none (here: 0 and the numbers above 40). -/
def errnoError (code : Nat) : String :=
  if code = 0 then "errno 0"
  else
    match errnoTexts.get? (code - 1) with
    | some s => s
    | none => "errno " ++ toString code

/-- The method `Error()`. -/
def GoError.Error : GoError → String
  | .errorString s => s
  | .errno code => errnoError code
  | .pathError op path err => op ++ " " ++ path.render ++ ": " ++ err.Error
  | .wrapError msg _ => msg

/-- The type assertion `err.(*os.PathError)`. -/
def GoError.isPathError : GoError → Bool
  | .pathError _ _ _ => true
  | _ => false

/-- Go `errors.Is(err, target)`: `err` or an error it wraps (through `Unwrap`
of `*os.PathError` and of the `fmt.Errorf` wrapper) equals `target`.
`syscall.Errno.Is` answers true only for the sentinels of package `os`, which
are not targets here.  Go compares `errors.New` values by identity; the texts
that occur in this package differ pairwise, so comparing texts agrees. -/
def errorsIs : GoError → GoError → Bool
  | err, target =>
    if err = target then true
    else
      match err with
      | .pathError _ _ inner => errorsIs inner target
      | .wrapError _ inner => errorsIs inner target
      | _ => false

/-- Go `fmt.Errorf(msg + "%w", err)` with a non-nil `err`: the message followed
by the text of `err`, wrapping `err`. -/
def fmtErrorf (msg : String) (err : GoError) : GoError :=
  .wrapError (msg ++ err.Error) err

/-- Go `fmt.Errorf("%w: locked by %v", err, pid)`.  With a nil operand the verb
`%w` wraps nothing: `fmt` prints `%!w(<nil>)` in its place and the error it
returns has nothing to unwrap. -/
def fmtErrorfLockedBy (err : Option GoError) (pid : Int) : GoError :=
  match err with
  | some e => .wrapError (e.Error ++ ": locked by " ++ toString pid) e
  | none => .errorString ("%!w(<nil>): locked by " ++ toString pid)

/-- Source line 13: `var ErrAlreadyLocked = errors.New("locked by another process")`. -/
def ErrAlreadyLocked : GoError := .errorString "locked by another process"

/-! ## Platform constants (Go package `syscall`, linux/amd64) -/

namespace syscall

def F_RDLCK : Nat := 0
def F_WRLCK : Nat := 1
def F_UNLCK : Nat := 2
def F_SETLK : Nat := 6
def F_SETLKW : Nat := 7
def ENOENT : Nat := 2
def EAGAIN : Nat := 11
def EACCES : Nat := 13
def EINVAL : Nat := 22
def ENOSPC : Nat := 28
def ENOLCK : Nat := 37

/-- The record `syscall.Flock_t` handed to `fcntl` (`Type_` is its field `Type`). -/
structure Flock_t where
  Type_ : Nat
  Whence : Int
  Start : Int
  Len : Int
  Pid : Int
  deriving DecidableEq, Repr

end syscall

/-- Go `io.SeekStart`. -/
def ioSeekStart : Int := 0

/-- The conversion `int32(n)`: two-complement wrap to 32 bits. -/
def int32 (n : Int) : Int := (n + 2 ^ 31) % 2 ^ 32 - 2 ^ 31

/-- The conversion `int16(n)`: two-complement wrap to 16 bits. -/
def int16 (n : Int) : Int := (n + 2 ^ 15) % 2 ^ 16 - 2 ^ 15

/-! ## The operating system -/

/-- A regular file of the namespace: its content, as the runes of its text, and
the process that holds the whole-file fcntl write lock on it, if any. -/
structure MarkerFile where
  content : List Char
  lockedBy : Option Nat
  deriving DecidableEq, Repr

/-- The file namespace: the regular file at each path, if there is one, and the
directories that exist.  Marker paths are taken not to name directories. -/
structure World where
  files : Path → Option MarkerFile
  dirs : Path → Bool

/-- An open `*os.File`: the name it was opened with and its read/write offset. -/
structure OsFile where
  name : Path
  offset : Nat
  deriving DecidableEq, Repr

/-- Failures the operating system reports for reasons outside `World`: for each
call an errno, or none when the call is not refused.  `openRead` is the
read-only open of `Exists` inside `Lock`, `openFile` the read-write open of
`Lock`, `setlk` and `unlk` the two fcntl requests.  `race` is what other
processes do between the probe of `Lock` and its open. -/
structure Env where
  race : World → World
  openRead : Option Nat
  mkdirAll : Option Nat
  openFile : Option Nat
  setlk : Option Nat
  seek : Option Nat
  write : Option Nat
  truncate : Option Nat
  unlk : Option Nat
  close : Option Nat
  remove : Option Nat

/-- No failure and no other process. -/
def Env.nominal : Env :=
  ⟨id, none, none, none, none, none, none, none, none, none, none⟩

/-- Replace the node at `p`. -/
def World.setFile (w : World) (p : Path) (f : Option MarkerFile) : World :=
  ⟨fun q => if q = p then f else w.files q, w.dirs⟩

/-- Go `filepath.Dir` on component lists. -/
def filepathDir (p : Path) : Path := p.dropLast

/-- Go `os.OpenFile(path, os.O_RDONLY, 0600)`: every failure is a
`*os.PathError`; the open fails with the errno of `fault` when the operating
system refuses it (`EACCES` for a caller without read permission on the marker)
and with `ENOENT` when nothing is at `path`. -/
def osOpenRead (fault : Option Nat) (path : Path) (w : World) : Except GoError OsFile :=
  match fault with
  | some e => .error (.pathError "open" path (.errno e))
  | none =>
    match w.files path with
    | none => .error (.pathError "open" path (.errno syscall.ENOENT))
    | some _ => .ok ⟨path, 0⟩

/-- Go `os.OpenFile(path, os.O_RDWR|os.O_CREATE, 0600)`: every failure is a
`*os.PathError`; an absent file is created empty. -/
def osOpenCreate (fault : Option Nat) (path : Path) (w : World) :
    Except GoError OsFile × World :=
  match fault with
  | some e => (.error (.pathError "open" path (.errno e)), w)
  | none =>
    match w.files path with
    | some _ => (.ok ⟨path, 0⟩, w)
    | none => (.ok ⟨path, 0⟩, w.setFile path (some ⟨[], none⟩))

/-- Go `os.MkdirAll(dir, os.ModePerm)`: the directory and its ancestors exist
afterwards. -/
def osMkdirAll (fault : Option Nat) (dir : Path) (w : World) : Option GoError × World :=
  match fault with
  | some e => (some (.pathError "mkdir" dir (.errno e)), w)
  | none => (none, ⟨w.files, fun d => w.dirs d || d.isPrefixOf dir⟩)

/-- Go `f.Close()`.  Closing any descriptor of a file drops every fcntl record
lock the calling process holds on that file. -/
def osClose (fault : Option Nat) (pid : Nat) (f : OsFile) (w : World) :
    Option GoError × World :=
  match fault with
  | some e => (some (.pathError "close" f.name (.errno e)), w)
  | none =>
    match w.files f.name with
    | some m =>
      if m.lockedBy = some pid then (none, w.setFile f.name (some ⟨m.content, none⟩))
      else (none, w)
    | none => (none, w)

/-- Go `os.Remove(path)`. -/
def osRemove (fault : Option Nat) (path : Path) (w : World) : Option GoError × World :=
  match fault with
  | some e => (some (.pathError "remove" path (.errno e)), w)
  | none =>
    match w.files path with
    | some _ => (none, w.setFile path none)
    | none => (some (.pathError "remove" path (.errno syscall.ENOENT)), w)

/-- Go `syscall.FcntlFlock(f.Fd(), cmd, lk)` by process `pid`, for the
non-blocking command `F_SETLK` on the whole file (`Whence = SeekStart`,
`Start = 0`, `Len = 0`): a write lock is granted unless another process holds
one (`EAGAIN`), an unlock releases the lock of the caller.  Other requests are
outside the model and answered `EINVAL`. -/
def syscallFcntlFlock (fault : Option Nat) (pid : Nat) (f : OsFile) (cmd : Nat)
    (lk : syscall.Flock_t) (w : World) : Option GoError × World :=
  match fault with
  | some e => (some (.errno e), w)
  | none =>
    if cmd = syscall.F_SETLK ∧ lk.Whence = ioSeekStart ∧ lk.Start = 0 ∧ lk.Len = 0 then
      match w.files f.name with
      | none => (none, w)
      | some m =>
        if lk.Type_ = syscall.F_WRLCK then
          if m.lockedBy = none ∨ m.lockedBy = some pid then
            (none, w.setFile f.name (some ⟨m.content, some pid⟩))
          else (some (.errno syscall.EAGAIN), w)
        else if lk.Type_ = syscall.F_UNLCK then
          if m.lockedBy = some pid then (none, w.setFile f.name (some ⟨m.content, none⟩))
          else (none, w)
        else (some (.errno syscall.EINVAL), w)
    else (some (.errno syscall.EINVAL), w)

/-- Bytes of `c` after writing `data` at offset `off` (a gap is zero-filled). -/
def writeAt (c : List Char) (off : Nat) (data : List Char) : List Char :=
  c.take off ++ List.replicate (off - c.length) (Char.ofNat 0) ++ data
    ++ c.drop (off + data.length)

/-- Go `f.Seek(0, 0)`: a refused seek leaves the offset where it was. -/
def osSeekStart (fault : Option Nat) (f : OsFile) : Option GoError × OsFile :=
  match fault with
  | some e => (some (.pathError "seek" f.name (.errno e)), f)
  | none => (none, ⟨f.name, 0⟩)

/-- Go `f.Write(data)`, as `fmt.Fprintf` calls it: the number of bytes written
and the error.  A refused write writes nothing. -/
def osWrite (fault : Option Nat) (f : OsFile) (data : List Char) (w : World) :
    (Nat × Option GoError) × OsFile × World :=
  match fault with
  | some e => ((0, some (.pathError "write" f.name (.errno e))), f, w)
  | none =>
    match w.files f.name with
    | some m =>
      ((data.length, none), ⟨f.name, f.offset + data.length⟩,
        w.setFile f.name (some ⟨writeAt m.content f.offset data, m.lockedBy⟩))
    | none => ((data.length, none), ⟨f.name, f.offset + data.length⟩, w)

/-- Go `f.Truncate(n)`: a refused truncation leaves the file as it was. -/
def osTruncate (fault : Option Nat) (f : OsFile) (n : Nat) (w : World) :
    Option GoError × World :=
  match fault with
  | some e => (some (.pathError "truncate" f.name (.errno e)), w)
  | none =>
    match w.files f.name with
    | some m =>
      (none, w.setFile f.name
        (some ⟨m.content.take n ++ List.replicate (n - m.content.length) (Char.ofNat 0),
          m.lockedBy⟩))
    | none => (none, w)

/-! ## `fmt.Fscanf(f, "%d\n", &pid)` and `fmt.Fprintf(f, "%d\n", pid)` -/

/-- The function `isSpace` of package `fmt`: the Unicode space characters. -/
def isSpace (c : Char) : Bool :=
  let n := c.toNat
  (0x0009 ≤ n && n ≤ 0x000d) || n = 0x0020 || n = 0x0085 || n = 0x00a0 || n = 0x1680
    || (0x2000 ≤ n && n ≤ 0x200a) || n = 0x2028 || n = 0x2029 || n = 0x202f || n = 0x205f
    || n = 0x3000

/-- Space characters other than the newline, which `Fscanf` skips. -/
def isBlank (c : Char) : Bool := isSpace c && c != '\n'

/-- Value of a run of decimal digits. -/
def decimalValue (ds : List Char) : Nat :=
  ds.foldl (fun acc d => 10 * acc + (d.toNat - 48)) 0

/-- Go `fmt.Fscanf(r, "%d\n", &pid)` on the bytes `input`: blanks, an optional
sign, decimal digits that fit an `int`, then blanks and a newline or the end of
the input. -/
def fmtFscanfInt (input : List Char) : Except GoError Int :=
  match input.dropWhile isBlank with
  | [] => .error (.errorString "EOF")
  | c :: rest =>
    if c = '\n' then .error (.errorString "unexpected newline")
    else
      let body := if c = '-' ∨ c = '+' then rest else c :: rest
      let digits := body.takeWhile Char.isDigit
      let tail := body.dropWhile Char.isDigit
      if digits = [] then .error (.errorString "expected integer")
      else
        let v : Int := if c = '-' then - (decimalValue digits : Int) else decimalValue digits
        if v < - 2 ^ 63 ∨ 2 ^ 63 ≤ v then .error (.errorString "value out of range")
        else
          match tail.dropWhile isBlank with
          | [] => .ok v
          | t :: _ =>
            if t = '\n' then .ok v
            else .error (.errorString "newline in format does not match input")

/-- The bytes `fmt.Fprintf(f, "%d\n", pid)` writes. -/
def pidLine (pid : Nat) : List Char := Nat.toDigits 10 pid ++ ['\n']

/-- What the descriptor `f` reads from its offset on.  (A read that fails gives
`Fscanf` an error, as a content that does not parse does.) -/
def readFrom (f : OsFile) (w : World) : List Char :=
  match w.files f.name with
  | some m => m.content.drop f.offset
  | none => []

/-! ## The package -/

/-- Source lines 15-18: `type FileLock struct { path string; file *os.File }`. -/
structure FileLock where
  path : Path
  file : OsFile
  deriving DecidableEq, Repr

/-- The request of `lock` (source lines 91-99): the command and the record. -/
def lockRequest (pid : Nat) : Nat × syscall.Flock_t :=
  (syscall.F_SETLK,
    ⟨syscall.F_RDLCK ||| syscall.F_WRLCK, int16 ioSeekStart, 0, 0, int32 pid⟩)

/-- The request of `unlock` (source lines 104-112). -/
def unlockRequest (pid : Nat) : Nat × syscall.Flock_t :=
  (syscall.F_SETLK, ⟨syscall.F_UNLCK, int16 ioSeekStart, 0, 0, int32 pid⟩)

/-- Source lines 89-100, `func lock(f *os.File) error`. -/
def lock (fault : Option Nat) (pid : Nat) (f : OsFile) (w : World) : Option GoError × World :=
  syscallFcntlFlock fault pid f (lockRequest pid).1 (lockRequest pid).2 w

/-- Source lines 102-113, `func unlock(f *os.File) error`. -/
def unlock (fault : Option Nat) (pid : Nat) (f : OsFile) (w : World) : Option GoError × World :=
  syscallFcntlFlock fault pid f (unlockRequest pid).1 (unlockRequest pid).2 w

/-- Result of `Exists`. -/
structure ExistsOut where
  found : Bool
  err : Option GoError
  world : World

/-- Source lines 68-84, `func Exists(filePath string) (bool, error)`, called by
process `pid`; `fault` is the errno with which its open is refused, if it is.
The scan of the owner id only feeds the log. -/
def Exists (fault : Option Nat) (pid : Nat) (filePath : Path) (w : World) : ExistsOut :=
  match osOpenRead fault filePath w with
  | .error err =>
    if err.isPathError then ⟨false, none, w⟩
    else ⟨false, some err, w⟩
  | .ok f =>
    -- `defer f.Close()` runs when the function returns
    match fmtFscanfInt (readFrom f w) with
    | .ok _ => ⟨true, none, (osClose none pid f w).2⟩
    | .error _ => ⟨true, none, (osClose none pid f w).2⟩

/-- Result of `Lock`. -/
structure LockOut where
  handle : Option FileLock
  err : Option GoError
  world : World

/-- Source lines 20-49, `func Lock(filePath string) (*FileLock, error)`, called
by process `pid`. -/
def Lock (env : Env) (pid : Nat) (filePath : Path) (w : World) : LockOut :=
  let probe := Exists env.openRead pid filePath w
  if probe.err ≠ none ∨ probe.found = true then ⟨none, some ErrAlreadyLocked, probe.world⟩
  else
    let w := env.race probe.world
    match osMkdirAll env.mkdirAll (filepathDir filePath) w with
    | (some err, w) => ⟨none, some (fmtErrorf "failed to mkdir: " err), w⟩
    | (none, w) =>
      match osOpenCreate env.openFile filePath w with
      | (.error err, w) =>
        if err.isPathError then ⟨none, some ErrAlreadyLocked, w⟩
        else ⟨none, some (fmtErrorf "failed to open file: " err), w⟩
      | (.ok f, w) =>
        match lock env.setlk pid f w with
        | (some _, w) =>
          -- `_, err = fmt.Fscanf(f, "%d\n", &pid)` assigns the variable `err` of the `if`
          let scanned := fmtFscanfInt (readFrom f w)
          let err : Option GoError :=
            match scanned with
            | .ok _ => none
            | .error e => some e
          if err = none then
            let owner : Int :=
              match scanned with
              | .ok v => v
              | .error _ => 0
            ⟨none, some (fmtErrorfLockedBy err owner), w⟩
          else ⟨none, some ErrAlreadyLocked, w⟩
        | (none, w) =>
          let f := (osSeekStart env.seek f).2
          match osWrite env.write f (pidLine pid) w with
          | ((n, none), f, w) =>
            let w := (osTruncate env.truncate f n w).2
            ⟨some ⟨filePath, f⟩, none, w⟩
          | ((_, some _), f, w) => ⟨some ⟨filePath, f⟩, none, w⟩

/-- Source lines 51-62, `func (fl *FileLock) Unlock() error`, called by process
`pid`. -/
def FileLock.Unlock (env : Env) (pid : Nat) (fl : FileLock) (w : World) :
    Option GoError × World :=
  match unlock env.unlk pid fl.file w with
  | (some err, w) => (some (fmtErrorf "failed to unlock the lock file: " err), w)
  | (none, w) =>
    match osClose env.close pid fl.file w with
    | (some err, w) => (some (fmtErrorf "failed to close the lock file: " err), w)
    | (none, w) =>
      match osRemove env.remove fl.file.name w with
      | (some err, w) => (some (fmtErrorf "failed to remove the lock file: " err), w)
      | (none, w) => (none, w)

/-- Source lines 64-66, `func (fl *FileLock) Close() error`. -/
def FileLock.Close (env : Env) (pid : Nat) (fl : FileLock) (w : World) :
    Option GoError × World :=
  fl.Unlock env pid w

/-! ## Concrete inputs -/

/-- A namespace with no file and no directory. -/
def emptyWorld : World := ⟨fun _ => none, fun _ => false⟩

/-- The path `tmp/x.lock`. -/
def xLock : Path := ["tmp", "x.lock"]

/-- A namespace whose only file is a marker at `tmp/x.lock` left by process 999,
with no fcntl lock on it. -/
def staleWorld : World := emptyWorld.setFile xLock (some ⟨"999\n".toList, none⟩)

/-- Process 1234 creates, locks and fills the marker `tmp/x.lock` in the window
between the probe and the open of another caller. -/
def raceEnv : Env :=
  ⟨fun w => w.setFile xLock (some ⟨"1234\n".toList, some 1234⟩),
    none, none, none, none, none, none, none, none, none, none⟩

/-- Another process leaves a longer, unlocked marker in the window between the
probe and the open. -/
def staleRaceEnv : Env :=
  ⟨fun w => w.setFile xLock (some ⟨"1234567\n".toList, none⟩),
    none, none, none, none, none, none, none, none, none, none⟩

/-- The read-write open of the marker is refused with `EACCES` (the caller may
not create a file in the directory). -/
def openDeniedEnv : Env :=
  ⟨id, none, none, some syscall.EACCES, none, none, none, none, none, none, none⟩

/-- A process of another user: the marker has mode 0600, so both its read-only
open and its read-write open of the marker are refused with `EACCES`. -/
def otherUserEnv : Env :=
  ⟨id, some syscall.EACCES, none, some syscall.EACCES, none, none, none, none, none, none, none⟩

/-- Another process leaves a longer, unlocked marker in the window between the
probe and the open, and the write of the pid line is refused with `ENOSPC`. -/
def staleRaceFullEnv : Env :=
  ⟨fun w => w.setFile xLock (some ⟨"1234567\n".toList, none⟩),
    none, none, none, none, none, some syscall.ENOSPC, none, none, none, none⟩

/-- The kernel refuses the unlock request with `ENOLCK`. -/
def unlkFailsEnv : Env :=
  ⟨id, none, none, none, none, none, none, none, some syscall.ENOLCK, none, none⟩

/-- The states in which `Lock` on `P` has succeeded and, since then, `P` has only
been probed with `Exists` or tried again with `Lock` by a process whose probe
was not refused. -/
inductive HeldSince (P : Path) : World → Prop where
  | locked (env : Env) (pid : Nat) (w : World) (h : FileLock) :
      (Lock env pid P w).handle = some h → (Lock env pid P w).err = none →
      HeldSince P (Lock env pid P w).world
  | probed (fault : Option Nat) (pid : Nat) (w : World) :
      HeldSince P w → HeldSince P (Exists fault pid P w).world
  | retried (env : Env) (pid : Nat) (w : World) :
      env.openRead = none → HeldSince P w → HeldSince P (Lock env pid P w).world

/-! ## Lemmas on the operating system and on the probe -/

theorem Exists_of_absent (fault : Option Nat) (pid : Nat) (P : Path) (w : World)
    (h : w.files P = none) : Exists fault pid P w = ⟨false, none, w⟩ := by
  cases fault <;> simp [Exists, osOpenRead, h, GoError.isPathError]

theorem Exists_of_refused (e pid : Nat) (P : Path) (w : World) :
    Exists (some e) pid P w = ⟨false, none, w⟩ := by
  simp [Exists, osOpenRead, GoError.isPathError]

theorem Exists_of_present (pid : Nat) (P : Path) (w : World) (m : MarkerFile)
    (h : w.files P = some m) :
    (Exists none pid P w).found = true ∧ (Exists none pid P w).err = none ∧
      ∃ m', (Exists none pid P w).world.files P = some m' ∧ m'.content = m.content := by
  have hw : ∃ m', (osClose none pid ⟨P, 0⟩ w).2.files P = some m' ∧ m'.content = m.content := by
    simp only [osClose, h]
    split
    · exact ⟨⟨m.content, none⟩, by simp [World.setFile], rfl⟩
    · exact ⟨m, h, rfl⟩
  simp only [Exists, osOpenRead, h]
  split <;> exact ⟨rfl, rfl, hw⟩

theorem Lock_of_present (env : Env) (pid : Nat) (P : Path) (w : World) (m : MarkerFile)
    (hp : env.openRead = none) (h : w.files P = some m) :
    Lock env pid P w = ⟨none, some ErrAlreadyLocked, (Exists none pid P w).world⟩ := by
  have hf := (Exists_of_present pid P w m h).1
  simp [Lock, hp, hf]

/-- A caller that is refused both opens of the marker is told `ErrAlreadyLocked`. -/
theorem Lock_of_refused (env : Env) (pid : Nat) (P : Path) (w : World) (e e' : Nat)
    (hp : env.openRead = some e) (hmk : env.mkdirAll = none) (hop : env.openFile = some e') :
    Lock env pid P w
      = ⟨none, some ErrAlreadyLocked, (osMkdirAll none (filepathDir P) (env.race w)).2⟩ := by
  simp [Lock, hp, Exists_of_refused, osMkdirAll, hmk, osOpenCreate, hop, GoError.isPathError]

theorem setFile_same (w : World) (p : Path) (f : Option MarkerFile) :
    (w.setFile p f).files p = f := by
  simp [World.setFile]

theorem lockRequest_eq (pid : Nat) :
    lockRequest pid = (syscall.F_SETLK, ⟨syscall.F_WRLCK, ioSeekStart, 0, 0, int32 pid⟩) := by
  simp [lockRequest, syscall.F_RDLCK, syscall.F_WRLCK, int16, ioSeekStart]

theorem unlockRequest_eq (pid : Nat) :
    unlockRequest pid = (syscall.F_SETLK, ⟨syscall.F_UNLCK, ioSeekStart, 0, 0, int32 pid⟩) := by
  simp [unlockRequest, int16, ioSeekStart]

/-- The kernel lock attempt of `lock` on an existing file. -/
theorem lock_of_file (pid : Nat) (f : OsFile) (w : World) (m : MarkerFile)
    (h : w.files f.name = some m) :
    lock none pid f w =
      if m.lockedBy = none ∨ m.lockedBy = some pid then
        (none, w.setFile f.name (some ⟨m.content, some pid⟩))
      else (some (.errno syscall.EAGAIN), w) := by
  simp [lock, lockRequest_eq, syscallFcntlFlock, h]

theorem unlock_of_file (pid : Nat) (f : OsFile) (w : World) (m : MarkerFile)
    (h : w.files f.name = some m) :
    unlock none pid f w =
      if m.lockedBy = some pid then (none, w.setFile f.name (some ⟨m.content, none⟩))
      else (none, w) := by
  simp [unlock, unlockRequest_eq, syscallFcntlFlock, h, syscall.F_UNLCK, syscall.F_WRLCK]

theorem unlock_of_absent (pid : Nat) (f : OsFile) (w : World)
    (h : w.files f.name = none) : unlock none pid f w = (none, w) := by
  simp [unlock, unlockRequest_eq, syscallFcntlFlock, h]

/-- The probe of `Lock` either finds the marker or leaves the state as it was. -/
theorem probe_cases (fault : Option Nat) (pid : Nat) (P : Path) (w : World) :
    (Exists fault pid P w).found = true ∨ Exists fault pid P w = ⟨false, none, w⟩ := by
  cases fault with
  | some e => exact Or.inr (Exists_of_refused e pid P w)
  | none =>
    cases h : w.files P with
    | none => exact Or.inr (Exists_of_absent none pid P w h)
    | some m => exact Or.inl (Exists_of_present pid P w m h).1

/-- What a successful `Lock` leaves behind: a handle on `P` and, at `P`, a marker
that holds the pid line of the caller and nothing else when neither the write
nor the truncation was refused. -/
theorem Lock_ok_state (env : Env) (pid : Nat) (P : Path) (w : World)
    (he : (Lock env pid P w).err = none) :
    (∃ f, (Lock env pid P w).handle = some ⟨P, f⟩ ∧ f.name = P) ∧
      ∃ m, (Lock env pid P w).world.files P = some m ∧
        (env.write = none → env.truncate = none → m.content = pidLine pid) := by
  obtain ⟨race, opr, mk, op, sl, sk, wr, tr, ul, cl, rm⟩ := env
  rcases probe_cases opr pid P w with hfound | hprobe
  · simp [Lock, hfound] at he
  · cases mk with
    | some e => simp [Lock, hprobe, osMkdirAll] at he
    | none =>
      cases op with
      | some e => simp [Lock, hprobe, osMkdirAll, osOpenCreate, GoError.isPathError] at he
      | none =>
        cases sl with
        | some e =>
          exfalso
          simp only [Lock, hprobe, osMkdirAll, osOpenCreate, lock, syscallFcntlFlock] at he
          revert he
          cases (race w).files P <;> simp <;> split <;> simp
        | none =>
          cases h1 : (race w).files P with
          | none =>
            cases sk <;> cases wr <;> cases tr <;>
              simp [Lock, hprobe, osMkdirAll, osOpenCreate, h1, lock_of_file, setFile_same,
                osSeekStart, osWrite, osTruncate, writeAt, World.setFile]
          | some m1 =>
            by_cases hl : m1.lockedBy = none ∨ m1.lockedBy = some pid
            · cases sk <;> cases wr <;> cases tr <;>
                simp [Lock, hprobe, osMkdirAll, osOpenCreate, h1, lock_of_file, setFile_same,
                  osSeekStart, osWrite, osTruncate, writeAt, World.setFile, hl]
            · exfalso
              simp only [Lock, hprobe, osMkdirAll, osOpenCreate, h1] at he
              revert he
              simp [lock_of_file, h1, hl]
              split <;> simp

/-- With no failure and no other process, `Lock` on a free path succeeds. -/
theorem Lock_nominal_of_absent (pid : Nat) (P : Path) (w : World) (h : w.files P = none) :
    (Lock Env.nominal pid P w).err = none ∧
      (Lock Env.nominal pid P w).handle = some ⟨P, ⟨P, (pidLine pid).length⟩⟩ ∧
      (Lock Env.nominal pid P w).world.files P = some ⟨pidLine pid, some pid⟩ := by
  have hprobe := Exists_of_absent none pid P w h
  simp [Lock, Env.nominal, hprobe, osMkdirAll, osOpenCreate, h, lock_of_file, setFile_same,
    osSeekStart, osWrite, osTruncate, writeAt, World.setFile]

theorem osRemove_ok (fault : Option Nat) (p : Path) (w : World)
    (h : (osRemove fault p w).1 = none) : (osRemove fault p w).2.files p = none := by
  cases fault with
  | some e => simp [osRemove] at h
  | none =>
    cases hf : w.files p with
    | none => simp [osRemove, hf] at h
    | some m => simp [osRemove, hf, setFile_same]

/-- A release that reports no error has removed the marker. -/
theorem Unlock_ok_removed (env : Env) (pid : Nat) (fl : FileLock) (w : World)
    (h : (fl.Unlock env pid w).1 = none) :
    (fl.Unlock env pid w).2.files fl.file.name = none := by
  rcases hu : unlock env.unlk pid fl.file w with ⟨_ | e, w1⟩
  · rcases hc : osClose env.close pid fl.file w1 with ⟨_ | e, w2⟩
    · rcases hr : osRemove env.remove fl.file.name w2 with ⟨_ | e, w3⟩
      · have := osRemove_ok env.remove fl.file.name w2 (by rw [hr])
        simpa [FileLock.Unlock, hu, hc, hr] using this
      · simp [FileLock.Unlock, hu, hc, hr] at h
    · simp [FileLock.Unlock, hu, hc] at h
  · simp [FileLock.Unlock, hu] at h

theorem HeldSince_present (P : Path) (w : World) (held : HeldSince P w) :
    ∃ m, w.files P = some m := by
  induction held with
  | locked env pid w h _ he =>
    obtain ⟨_, m, hm, _⟩ := Lock_ok_state env pid P w he
    exact ⟨m, hm⟩
  | probed fault pid w _ ih =>
    obtain ⟨m, hm⟩ := ih
    cases fault with
    | some e => rw [Exists_of_refused e pid P w]; exact ⟨m, hm⟩
    | none =>
      obtain ⟨_, _, m', hm', _⟩ := Exists_of_present pid P w m hm
      exact ⟨m', hm'⟩
  | retried env pid w hp _ ih =>
    obtain ⟨m, hm⟩ := ih
    obtain ⟨_, _, m', hm', _⟩ := Exists_of_present pid P w m hm
    rw [Lock_of_present env pid P w m hp hm]
    exact ⟨m', hm'⟩

theorem unlock_present (pid : Nat) (f : OsFile) (w : World) (m : MarkerFile)
    (h : w.files f.name = some m) :
    (unlock none pid f w).1 = none ∧ ∃ m', (unlock none pid f w).2.files f.name = some m' := by
  rw [unlock_of_file pid f w m h]
  split
  · exact ⟨rfl, _, setFile_same _ _ _⟩
  · exact ⟨rfl, m, h⟩

theorem osClose_present (pid : Nat) (f : OsFile) (w : World) (m : MarkerFile)
    (h : w.files f.name = some m) :
    (osClose none pid f w).1 = none ∧ ∃ m', (osClose none pid f w).2.files f.name = some m' := by
  simp only [osClose, h]
  split
  · exact ⟨rfl, _, setFile_same _ _ _⟩
  · exact ⟨rfl, m, h⟩

/-- With no failure, releasing a handle whose marker is present reports no error. -/
theorem Unlock_nominal_of_present (pid : Nat) (fl : FileLock) (w : World) (m : MarkerFile)
    (h : w.files fl.file.name = some m) : (fl.Unlock Env.nominal pid w).1 = none := by
  obtain ⟨hu1, m1, hu2⟩ := unlock_present pid fl.file w m h
  obtain ⟨hc1, m2, hc2⟩ := osClose_present pid fl.file _ m1 hu2
  rcases hu : unlock none pid fl.file w with ⟨eu, w1⟩
  rw [hu] at hu1 hc1 hc2
  rcases hc : osClose none pid fl.file w1 with ⟨ec, w2⟩
  rw [hc] at hc1 hc2
  simp only at hu1 hc1 hc2
  subst hu1 hc1
  simp [FileLock.Unlock, Env.nominal, hu, hc, osRemove, hc2]

/-! ## The claims -/

/-- C1, as stated, fails: process 4242 holds the lock on `tmp/x.lock` and has not
released it.  `Exists`, called by a process whose read-only open of the marker is
refused with `EACCES` (a process of another user: the marker has mode 0600),
returns `(false, nil)`, not `(true, nil)`, also right after that process was told
`ErrAlreadyLocked` by `Lock`. -/
theorem Exists_refused_while_held :
    HeldSince xLock (Lock Env.nominal 4242 xLock emptyWorld).world ∧
      (Lock otherUserEnv 7 xLock (Lock Env.nominal 4242 xLock emptyWorld).world).err
        = some ErrAlreadyLocked ∧
      (Exists (some syscall.EACCES) 7 xLock
        (Lock otherUserEnv 7 xLock (Lock Env.nominal 4242 xLock emptyWorld).world).world).found
        = false ∧
      (Exists (some syscall.EACCES) 7 xLock
        (Lock otherUserEnv 7 xLock (Lock Env.nominal 4242 xLock emptyWorld).world).world).err
        = none :=
  ⟨HeldSince.locked Env.nominal 4242 emptyWorld ⟨xLock, ⟨xLock, 5⟩⟩ rfl rfl, rfl, rfl, rfl⟩

/-- C1, amended: in every state in which `Lock(P)` has succeeded and `Unlock` has
not been called since, a further `Lock(P)` returns a nil handle and an error
`err` with `errors.Is(err, ErrAlreadyLocked)` when its probe is not refused the
open of the marker, whatever the operating system would answer later, and also
when the caller is refused both of its opens of the marker; and `Exists(P)`,
called afterwards by a process that is not refused the open, returns
`(true, nil)` (in the second case as long as no other process took the marker
away in the window of that `Lock`). -/
theorem Lock_while_held_fails (P : Path) (w : World) (held : HeldSince P w)
    (env : Env) (pid pid' : Nat) :
    (env.openRead = none →
        (Lock env pid P w).handle = none ∧
        (∃ err, (Lock env pid P w).err = some err ∧ errorsIs err ErrAlreadyLocked = true) ∧
        (Exists none pid' P (Lock env pid P w).world).found = true ∧
        (Exists none pid' P (Lock env pid P w).world).err = none) ∧
      (∀ e e', env.openRead = some e → env.mkdirAll = none → env.openFile = some e' →
        (Lock env pid P w).handle = none ∧
        (∃ err, (Lock env pid P w).err = some err ∧ errorsIs err ErrAlreadyLocked = true) ∧
        ((env.race w).files P = w.files P →
          (Exists none pid' P (Lock env pid P w).world).found = true ∧
          (Exists none pid' P (Lock env pid P w).world).err = none)) := by
  obtain ⟨m, hm⟩ := HeldSince_present P w held
  constructor
  · intro hp
    obtain ⟨_, _, m', hm', _⟩ := Exists_of_present pid P w m hm
    rw [Lock_of_present env pid P w m hp hm]
    obtain ⟨hf, hn, _⟩ := Exists_of_present pid' P (Exists none pid P w).world m' hm'
    exact ⟨rfl, ⟨ErrAlreadyLocked, rfl, by simp [errorsIs]⟩, hf, hn⟩
  · intro e e' hp hmk hop
    rw [Lock_of_refused env pid P w e e' hp hmk hop]
    refine ⟨rfl, ⟨ErrAlreadyLocked, rfl, by simp [errorsIs]⟩, ?_⟩
    intro hrace
    have hm2 : (osMkdirAll none (filepathDir P) (env.race w)).2.files P = some m := by
      simp [osMkdirAll, hrace, hm]
    obtain ⟨hf, hn, _⟩ := Exists_of_present pid' P _ m hm2
    exact ⟨hf, hn⟩

theorem Lock_while_held_fails_witness :
    HeldSince xLock (Lock Env.nominal 4242 xLock emptyWorld).world ∧
      (Lock raceEnv 4242 xLock (Lock Env.nominal 4242 xLock emptyWorld).world).handle = none ∧
      (Lock raceEnv 4242 xLock (Lock Env.nominal 4242 xLock emptyWorld).world).err
        = some ErrAlreadyLocked ∧
      (Exists none 4242 xLock
        (Lock raceEnv 4242 xLock (Lock Env.nominal 4242 xLock emptyWorld).world).world).found
        = true :=
  have held : HeldSince xLock (Lock Env.nominal 4242 xLock emptyWorld).world :=
    HeldSince.locked Env.nominal 4242 emptyWorld ⟨xLock, ⟨xLock, 5⟩⟩ rfl rfl
  have h := (Lock_while_held_fails xLock _ held raceEnv 4242 4242).1 rfl
  ⟨held, h.1, rfl, h.2.2.1⟩

/-- C2, as stated, fails: process 4242 locks `tmp/x.lock`; `Exists`, called in the
resulting state by a process whose read-only open of the marker is refused with
`EACCES`, returns `(false, nil)`. -/
theorem Exists_refused_after_Lock :
    (Lock Env.nominal 4242 xLock emptyWorld).handle = some ⟨xLock, ⟨xLock, 5⟩⟩ ∧
      (Lock Env.nominal 4242 xLock emptyWorld).err = none ∧
      (Exists (some syscall.EACCES) 7 xLock (Lock Env.nominal 4242 xLock emptyWorld).world).found
        = false ∧
      (Exists (some syscall.EACCES) 7 xLock (Lock Env.nominal 4242 xLock emptyWorld).world).err
        = none :=
  ⟨rfl, rfl, rfl, rfl⟩

/-- C2, amended: whenever `Lock(P)` returns a handle with a nil error, the path
field of the handle is `P` and `Exists(P)`, called in the resulting state by a
process that is not refused the read-only open of the marker, returns
`(true, nil)`. -/
theorem Lock_ok_path_exists (env : Env) (pid pid' : Nat) (P : Path) (w : World) (h : FileLock)
    (hh : (Lock env pid P w).handle = some h) (he : (Lock env pid P w).err = none) :
    h.path = P ∧ (Exists none pid' P (Lock env pid P w).world).found = true ∧
      (Exists none pid' P (Lock env pid P w).world).err = none := by
  obtain ⟨⟨f, hf, _⟩, m, hm, _⟩ := Lock_ok_state env pid P w he
  obtain ⟨h1, h2, _⟩ := Exists_of_present pid' P _ m hm
  rw [hf] at hh
  cases hh
  exact ⟨rfl, h1, h2⟩

theorem Lock_ok_path_exists_witness :
    (Lock Env.nominal 4242 xLock emptyWorld).handle = some ⟨xLock, ⟨xLock, 5⟩⟩ ∧
      (Lock Env.nominal 4242 xLock emptyWorld).err = none ∧
      (Exists none 4242 xLock (Lock Env.nominal 4242 xLock emptyWorld).world).found = true ∧
      (Exists none 4242 xLock (Lock Env.nominal 4242 xLock emptyWorld).world).err = none :=
  ⟨rfl, rfl, (Lock_ok_path_exists Env.nominal 4242 4242 xLock emptyWorld
    ⟨xLock, ⟨xLock, 5⟩⟩ rfl rfl).2⟩

/-- C3: for every handle `h` of a successful `Lock(P)`, whenever `h.Unlock()`
returns nil, `Exists(P)` in the resulting state returns `(false, nil)`, whether
or not its open is refused, and a following `Lock(P)` succeeds; and on a path with no file the sequence `Lock`,
`Lock`, `Unlock` of the first handle, `Lock` succeeds, fails with
`ErrAlreadyLocked`, succeeds, succeeds. -/
theorem Unlock_ok_frees_path (env : Env) (pid : Nat) (P : Path) (w0 : World) (h : FileLock)
    (hh : (Lock env pid P w0).handle = some h) (he : (Lock env pid P w0).err = none)
    (envU : Env) (pidU : Nat) (w : World) (hU : (h.Unlock envU pidU w).1 = none)
    (fault : Option Nat) (pid' pid'' : Nat) :
    ((Exists fault pid' P (h.Unlock envU pidU w).2).found = false ∧
      (Exists fault pid' P (h.Unlock envU pidU w).2).err = none ∧
      ∃ h', (Lock Env.nominal pid'' P (h.Unlock envU pidU w).2).handle = some h' ∧
        (Lock Env.nominal pid'' P (h.Unlock envU pidU w).2).err = none) ∧
    ∀ (Q : Path) (v : World) (a b c : Nat), v.files Q = none →
      ∃ h1, (Lock Env.nominal a Q v).handle = some h1 ∧ (Lock Env.nominal a Q v).err = none ∧
        (Lock Env.nominal b Q (Lock Env.nominal a Q v).world).handle = none ∧
        (∃ err, (Lock Env.nominal b Q (Lock Env.nominal a Q v).world).err = some err ∧
          errorsIs err ErrAlreadyLocked = true) ∧
        (h1.Unlock Env.nominal a (Lock Env.nominal b Q (Lock Env.nominal a Q v).world).world).1
          = none ∧
        ∃ h4,
          (Lock Env.nominal c Q
            (h1.Unlock Env.nominal a
              (Lock Env.nominal b Q (Lock Env.nominal a Q v).world).world).2).handle = some h4 ∧
          (Lock Env.nominal c Q
            (h1.Unlock Env.nominal a
              (Lock Env.nominal b Q (Lock Env.nominal a Q v).world).world).2).err = none := by
  constructor
  · obtain ⟨⟨f, hf, hname⟩, _⟩ := Lock_ok_state env pid P w0 he
    rw [hf] at hh
    cases hh
    have hgone := Unlock_ok_removed envU pidU ⟨P, f⟩ w hU
    simp only [hname] at hgone
    obtain ⟨l1, l2, _⟩ := Lock_nominal_of_absent pid'' P _ hgone
    rw [Exists_of_absent fault pid' P _ hgone]
    exact ⟨rfl, rfl, _, l2, l1⟩
  · intro Q v a b c hv
    obtain ⟨l1, l2, l3⟩ := Lock_nominal_of_absent a Q v hv
    refine ⟨_, l2, l1, ?_⟩
    obtain ⟨m', hm', _⟩ := (Exists_of_present b Q _ _ l3).2.2
    rw [Lock_of_present Env.nominal b Q _ _ rfl l3]
    refine ⟨rfl, ⟨ErrAlreadyLocked, rfl, by simp [errorsIs]⟩, ?_⟩
    have hrel := Unlock_nominal_of_present a ⟨Q, ⟨Q, (pidLine a).length⟩⟩ _ m' hm'
    refine ⟨hrel, ?_⟩
    have hgone := Unlock_ok_removed Env.nominal a ⟨Q, ⟨Q, (pidLine a).length⟩⟩ _ hrel
    obtain ⟨k1, k2, _⟩ := Lock_nominal_of_absent c Q _ hgone
    exact ⟨_, k2, k1⟩

theorem Unlock_ok_frees_path_witness :
    (Lock Env.nominal 4242 xLock emptyWorld).handle = some ⟨xLock, ⟨xLock, 5⟩⟩ ∧
      (Lock Env.nominal 4242 xLock emptyWorld).err = none ∧
      (FileLock.Unlock Env.nominal 4242 ⟨xLock, ⟨xLock, 5⟩⟩
        (Lock Env.nominal 4242 xLock emptyWorld).world).1 = none ∧
      (Exists none 7 xLock (FileLock.Unlock Env.nominal 4242 ⟨xLock, ⟨xLock, 5⟩⟩
        (Lock Env.nominal 4242 xLock emptyWorld).world).2).found = false ∧
      (Lock Env.nominal 7 xLock (FileLock.Unlock Env.nominal 4242 ⟨xLock, ⟨xLock, 5⟩⟩
        (Lock Env.nominal 4242 xLock emptyWorld).world).2).err = none :=
  have h := Unlock_ok_frees_path Env.nominal 4242 xLock emptyWorld ⟨xLock, ⟨xLock, 5⟩⟩ rfl rfl
    Env.nominal 4242 (Lock Env.nominal 4242 xLock emptyWorld).world rfl none 7 7
  ⟨rfl, rfl, rfl, h.1.1, rfl⟩


/-- C4: at a path where no file exists, `Exists` returns `(false, nil)`, whether
or not its open is refused, and leaves the namespace (files and directories) as
it was. -/
theorem Exists_absent_false_unchanged (fault : Option Nat) (pid : Nat) (P : Path) (w : World)
    (h : w.files P = none) :
    (Exists fault pid P w).found = false ∧ (Exists fault pid P w).err = none ∧
      (Exists fault pid P w).world = w := by
  rw [Exists_of_absent fault pid P w h]
  exact ⟨rfl, rfl, rfl⟩

theorem Exists_absent_false_unchanged_witness :
    emptyWorld.files xLock = none ∧ (Exists none 4242 xLock emptyWorld).found = false ∧
      (Exists none 4242 xLock emptyWorld).err = none ∧
      (Exists none 4242 xLock emptyWorld).world = emptyWorld :=
  ⟨rfl, Exists_absent_false_unchanged none 4242 xLock emptyWorld rfl⟩

/-- C5, as stated, fails: a marker left at `tmp/x.lock` by process 999, on which
no process holds the fcntl lock, makes `Lock` return a nil handle and
`ErrAlreadyLocked` although the operating system reports no failure. -/
theorem Lock_stale_marker_blocked :
    staleWorld.files xLock = some ⟨"999\n".toList, none⟩ ∧
      (Lock Env.nominal 4242 xLock staleWorld).handle = none ∧
      (Lock Env.nominal 4242 xLock staleWorld).err = some ErrAlreadyLocked :=
  ⟨rfl, rfl, rfl⟩

/-- C5, amended: at every path where a marker file exists, `Lock` returns a nil
handle and `ErrAlreadyLocked`, whether or not a process holds the fcntl lock on
the file: when its probe is not refused the open of the marker (whatever the
operating system would answer later), because the probe at the start of `Lock`
takes the presence of the file for contention, and also when the caller is
refused both of its opens of the marker. -/
theorem Lock_marker_present_fails (env : Env) (pid : Nat) (P : Path) (w : World)
    (m : MarkerFile) (h : w.files P = some m) :
    (env.openRead = none →
        (Lock env pid P w).handle = none ∧ (Lock env pid P w).err = some ErrAlreadyLocked ∧
        errorsIs ErrAlreadyLocked ErrAlreadyLocked = true) ∧
      (∀ e e', env.openRead = some e → env.mkdirAll = none → env.openFile = some e' →
        (Lock env pid P w).handle = none ∧ (Lock env pid P w).err = some ErrAlreadyLocked) := by
  constructor
  · intro hp
    rw [Lock_of_present env pid P w m hp h]
    exact ⟨rfl, rfl, by simp [errorsIs]⟩
  · intro e e' hp hmk hop
    rw [Lock_of_refused env pid P w e e' hp hmk hop]
    exact ⟨rfl, rfl⟩

theorem Lock_marker_present_fails_witness :
    staleWorld.files xLock = some ⟨"999\n".toList, none⟩ ∧
      (Lock staleRaceEnv 7 xLock staleWorld).handle = none ∧
      (Lock staleRaceEnv 7 xLock staleWorld).err = some ErrAlreadyLocked ∧
      (Lock otherUserEnv 7 xLock staleWorld).err = some ErrAlreadyLocked :=
  have h := Lock_marker_present_fails staleRaceEnv 7 xLock staleWorld
    ⟨"999\n".toList, none⟩ rfl
  have h' := Lock_marker_present_fails otherUserEnv 7 xLock staleWorld
    ⟨"999\n".toList, none⟩ rfl
  ⟨rfl, (h.1 rfl).1, (h.1 rfl).2.1, (h'.2 syscall.EACCES syscall.EACCES rfl rfl rfl).2⟩

/-- C6, failing input: process 4242 probes the free path `tmp/x.lock`; before it
opens the file, process 1234 creates the marker, locks it and writes `1234\n`.
The kernel rejects the lock of 4242, the owner id parses, and `Lock` returns the
plain error `%!w(<nil>): locked by 1234`, for which `errors.Is(err,
ErrAlreadyLocked)` is false. -/
theorem Lock_contended_parsed_owner :
    (Lock raceEnv 4242 xLock emptyWorld).handle = none ∧
      (Lock raceEnv 4242 xLock emptyWorld).err
        = some (.errorString "%!w(<nil>): locked by 1234") ∧
      errorsIs (.errorString "%!w(<nil>): locked by 1234") ErrAlreadyLocked = false :=
  ⟨rfl, rfl, by decide⟩

/-- The outcome of `Lock` when the marker found by `os.OpenFile` cannot be locked,
because the kernel reports a failure or another process holds the lock: a nil
handle, and `ErrAlreadyLocked` exactly when the owner id does not parse. -/
theorem Lock_of_kernel_rejection (env : Env) (pid : Nat) (P : Path) (w : World)
    (m : MarkerFile) (hP : w.files P = none) (hmk : env.mkdirAll = none)
    (hop : env.openFile = none) (hm : (env.race w).files P = some m)
    (hrej : env.setlk ≠ none ∨ ¬ (m.lockedBy = none ∨ m.lockedBy = some pid)) :
    (Lock env pid P w).handle = none ∧
      (Lock env pid P w).err = some
        (match fmtFscanfInt m.content with
          | .ok v => .errorString ("%!w(<nil>): locked by " ++ toString v)
          | .error _ => ErrAlreadyLocked) := by
  have hprobe := Exists_of_absent env.openRead pid P w hP
  have hW : ∀ W : World, W.files P = some m →
      ∃ e, lock env.setlk pid ⟨P, 0⟩ W = (some e, W) := by
    intro W hWm
    cases hs : env.setlk with
    | some e => exact ⟨.errno e, by simp [lock, syscallFcntlFlock]⟩
    | none =>
      have hno : ¬ (m.lockedBy = none ∨ m.lockedBy = some pid) := by
        rcases hrej with h | h
        · exact absurd hs h
        · exact h
      exact ⟨.errno syscall.EAGAIN, by rw [lock_of_file pid ⟨P, 0⟩ W m hWm, if_neg hno]⟩
  have hlock := hW ⟨(env.race w).files,
    fun d => (env.race w).dirs d || d.isPrefixOf (filepathDir P)⟩ hm
  obtain ⟨e, hlock⟩ := hlock
  cases hscan : fmtFscanfInt m.content with
  | ok v =>
    simp [Lock, hprobe, osMkdirAll, hmk, osOpenCreate, hop, hm, hlock, readFrom, hscan,
      fmtErrorfLockedBy]
  | error e' =>
    simp [Lock, hprobe, osMkdirAll, hmk, osOpenCreate, hop, hm, hlock, readFrom, hscan]

/-- C7, as stated, fails: process 42 probes the free path `tmp/x.lock`; another
process leaves the unlocked marker `1234567\n` before the open; the kernel
grants the lock and the write of the pid line is refused with `ENOSPC`.  `Lock`
returns a handle and a nil error, and the marker still holds `1234567\n`. -/
theorem Lock_ok_write_refused_keeps_content :
    (Lock staleRaceFullEnv 42 xLock emptyWorld).handle = some ⟨xLock, ⟨xLock, 0⟩⟩ ∧
      (Lock staleRaceFullEnv 42 xLock emptyWorld).err = none ∧
      (Lock staleRaceFullEnv 42 xLock emptyWorld).world.files xLock
        = some ⟨"1234567\n".toList, some 42⟩ :=
  ⟨rfl, rfl, rfl⟩

/-- C7, amended: whenever `Lock(P)` succeeds and neither its write of the pid line
nor its truncation of the file was refused, the marker holds exactly the decimal
digits of the pid of the caller followed by one newline, whatever the file held
when it was opened (another process may have left any content there,
`env.race`). -/
theorem Lock_ok_content (env : Env) (pid : Nat) (P : Path) (w : World)
    (hw : env.write = none) (ht : env.truncate = none)
    (he : (Lock env pid P w).err = none) :
    ∃ m, (Lock env pid P w).world.files P = some m ∧
      m.content = Nat.toDigits 10 pid ++ ['\n'] := by
  obtain ⟨_, m, hm, hc⟩ := Lock_ok_state env pid P w he
  exact ⟨m, hm, hc hw ht⟩

theorem Lock_ok_content_witness :
    (staleRaceEnv.race emptyWorld).files xLock = some ⟨"1234567\n".toList, none⟩ ∧
      (Lock staleRaceEnv 42 xLock emptyWorld).err = none ∧
      ∃ m, (Lock staleRaceEnv 42 xLock emptyWorld).world.files xLock = some m ∧
        m.content = ['4', '2', '\n'] :=
  ⟨rfl, rfl, Lock_ok_content staleRaceEnv 42 xLock emptyWorld rfl rfl rfl⟩

/-- C8, failing input: on the free path `tmp/x.lock`, `os.OpenFile` with
`O_RDWR|O_CREATE` is refused with `EACCES` (permission denied).  `Lock` returns
`ErrAlreadyLocked` itself, which satisfies `errors.Is(err, ErrAlreadyLocked)`
and does not wrap the errno: the test of line 29 holds for every error of
`os.OpenFile`, so the wrapping return of line 32 is never reached. -/
theorem Lock_open_denied_AlreadyLocked :
    emptyWorld.files xLock = none ∧
      (Lock openDeniedEnv 4242 xLock emptyWorld).err = some ErrAlreadyLocked ∧
      errorsIs ErrAlreadyLocked ErrAlreadyLocked = true ∧
      errorsIs ErrAlreadyLocked (.errno syscall.EACCES) = false :=
  ⟨rfl, rfl, by decide, by decide⟩

/-- How `Lock` reports a failure of `os.MkdirAll` and of `os.OpenFile` on a path
the probe finds free: the first is wrapped in `failed to mkdir: …` and is not
`ErrAlreadyLocked`, the second comes back as `ErrAlreadyLocked`. -/
theorem Lock_of_mkdir_or_open_failure (env : Env) (pid : Nat) (P : Path) (w : World)
    (hP : w.files P = none) :
    (∀ e, env.mkdirAll = some e →
        (Lock env pid P w).handle = none ∧
        (Lock env pid P w).err
          = some (.wrapError
              ("failed to mkdir: " ++ (GoError.pathError "mkdir" (filepathDir P) (.errno e)).Error)
              (.pathError "mkdir" (filepathDir P) (.errno e))) ∧
        ∃ err, (Lock env pid P w).err = some err ∧ errorsIs err (.errno e) = true ∧
          errorsIs err ErrAlreadyLocked = false) ∧
      (∀ e, env.mkdirAll = none → env.openFile = some e →
        (Lock env pid P w).handle = none ∧ (Lock env pid P w).err = some ErrAlreadyLocked) := by
  have hprobe := Exists_of_absent env.openRead pid P w hP
  constructor
  · intro e he
    have hL : Lock env pid P w = ⟨none,
        some (fmtErrorf "failed to mkdir: " (.pathError "mkdir" (filepathDir P) (.errno e))),
        env.race w⟩ := by
      simp [Lock, hprobe, osMkdirAll, he]
    rw [hL]
    refine ⟨rfl, rfl, _, rfl, ?_, ?_⟩
    · simp [fmtErrorf, errorsIs]
    · simp [fmtErrorf, errorsIs, ErrAlreadyLocked]
  · intro e hmk hop
    simp [Lock, hprobe, osMkdirAll, hmk, osOpenCreate, hop, GoError.isPathError]

/-- C9, as stated, fails: process 4242 locks `tmp/x.lock` and releases the handle
while the kernel refuses the unlock request.  `Unlock` returns at once with
`failed to unlock the lock file: …`; the marker is still in the namespace and
still locked, so neither the close nor the remove took place. -/
theorem Unlock_refused_keeps_marker :
    (Lock Env.nominal 4242 xLock emptyWorld).handle = some ⟨xLock, ⟨xLock, 5⟩⟩ ∧
      (FileLock.Unlock unlkFailsEnv 4242 ⟨xLock, ⟨xLock, 5⟩⟩
          (Lock Env.nominal 4242 xLock emptyWorld).world).1
        = some (.wrapError "failed to unlock the lock file: no locks available" (.errno 37)) ∧
      (FileLock.Unlock unlkFailsEnv 4242 ⟨xLock, ⟨xLock, 5⟩⟩
          (Lock Env.nominal 4242 xLock emptyWorld).world).2.files xLock
        = some ⟨"4242\n".toList, some 4242⟩ :=
  ⟨rfl, by decide, rfl⟩

/-- C9, amended: `Unlock` runs the three release steps in order and stops at the
first that fails.  When the kernel unlock fails nothing is closed or removed (the
state is untouched); when the close fails the marker is not removed (the state
is the one the kernel unlock left); and in each case, the failed remove
included, the returned error names the phase and wraps the error of the
operating system. -/
theorem Unlock_stops_at_first_failure (env : Env) (pid : Nat) (fl : FileLock) (w : World) :
    (∀ e, env.unlk = some e →
        fl.Unlock env pid w
          = (some (.wrapError ("failed to unlock the lock file: " ++ (GoError.errno e).Error)
              (.errno e)), w)) ∧
      (∀ e, env.unlk = none → env.close = some e →
        fl.Unlock env pid w
          = (some (.wrapError
              ("failed to close the lock file: "
                ++ (GoError.pathError "close" fl.file.name (.errno e)).Error)
              (.pathError "close" fl.file.name (.errno e))),
            (unlock none pid fl.file w).2)) ∧
      (∀ e, env.unlk = none → env.close = none → env.remove = some e →
        (fl.Unlock env pid w).1
          = some (.wrapError
              ("failed to remove the lock file: "
                ++ (GoError.pathError "remove" fl.file.name (.errno e)).Error)
              (.pathError "remove" fl.file.name (.errno e)))) ∧
      (∀ err, (fl.Unlock env pid w).1 = some err →
        ∃ e, errorsIs err (.errno e) = true) := by
  have hu : (unlock none pid fl.file w).1 = none := by
    cases hf : w.files fl.file.name with
    | none => rw [unlock_of_absent pid fl.file w hf]
    | some m => exact (unlock_present pid fl.file w m hf).1
  have hc : ∀ v, (osClose none pid fl.file v).1 = none := by
    intro v
    simp only [osClose]
    split
    · split <;> rfl
    · rfl
  refine ⟨?_, ?_, ?_, ?_⟩
  · intro e he
    simp [FileLock.Unlock, he, unlock, syscallFcntlFlock, fmtErrorf]
  · intro e h1 h2
    rcases hx : unlock none pid fl.file w with ⟨eu, w1⟩
    rw [hx] at hu
    simp only at hu
    subst hu
    simp [FileLock.Unlock, h1, h2, hx, osClose, fmtErrorf]
  · intro e h1 h2 h3
    rcases hx : unlock none pid fl.file w with ⟨eu, w1⟩
    rw [hx] at hu
    simp only at hu
    subst hu
    have hc1 := hc w1
    rcases hy : osClose none pid fl.file w1 with ⟨ec, w2⟩
    rw [hy] at hc1
    simp only at hc1
    subst hc1
    simp [FileLock.Unlock, h1, h2, h3, hx, hy, osRemove, fmtErrorf]
  · intro err herr
    rcases hx : unlock env.unlk pid fl.file w with ⟨_ | eu, w1⟩
    · rcases hy : osClose env.close pid fl.file w1 with ⟨_ | ec, w2⟩
      · rcases hz : osRemove env.remove fl.file.name w2 with ⟨_ | er, w3⟩
        · simp [FileLock.Unlock, hx, hy, hz] at herr
        · simp only [FileLock.Unlock, hx, hy, hz, Option.some.injEq] at herr
          subst herr
          have : ∃ e, er = .pathError "remove" fl.file.name (.errno e) := by
            have hz1 : (osRemove env.remove fl.file.name w2).1 = some er := by rw [hz]
            revert hz1
            simp only [osRemove]
            split
            · intro h; exact ⟨_, (Option.some.inj h).symm⟩
            · split
              · intro h; cases h
              · intro h; exact ⟨_, (Option.some.inj h).symm⟩
          obtain ⟨e, rfl⟩ := this
          exact ⟨e, by simp [fmtErrorf, errorsIs]⟩
      · simp only [FileLock.Unlock, hx, hy, Option.some.injEq] at herr
        subst herr
        have : ∃ e, ec = .pathError "close" fl.file.name (.errno e) := by
          have hy1 : (osClose env.close pid fl.file w1).1 = some ec := by rw [hy]
          revert hy1
          simp only [osClose]
          split
          · intro h; exact ⟨_, (Option.some.inj h).symm⟩
          · split
            · split <;> intro h <;> cases h
            · intro h; cases h
        obtain ⟨e, rfl⟩ := this
        exact ⟨e, by simp [fmtErrorf, errorsIs]⟩
    · simp only [FileLock.Unlock, hx, Option.some.injEq] at herr
      subst herr
      have : ∃ e, eu = .errno e := by
        have hx1 : (unlock env.unlk pid fl.file w).1 = some eu := by rw [hx]
        revert hx1
        simp only [unlock, syscallFcntlFlock]
        split
        · intro h; exact ⟨_, (Option.some.inj h).symm⟩
        · split
          · split
            · intro h; cases h
            · split
              · split <;> intro h
                · cases h
                · exact ⟨_, (Option.some.inj h).symm⟩
              · split
                · split <;> intro h <;> cases h
                · intro h; exact ⟨_, (Option.some.inj h).symm⟩
          · intro h; exact ⟨_, (Option.some.inj h).symm⟩
      obtain ⟨e, rfl⟩ := this
      exact ⟨e, by simp [fmtErrorf, errorsIs]⟩

/-- C10: the request of `lock` is a write lock over the whole file, issued
without blocking: with the linux values `F_RDLCK = 0`, `F_WRLCK = 1` the type
`F_RDLCK|F_WRLCK` is `F_WRLCK`, different from `F_RDLCK` and `F_UNLCK`; the range
is `Whence = SeekStart`, `Start = 0`, `Len = 0`; the command is `F_SETLK`, not
`F_SETLKW`.  The request of `unlock` has the same command and range and the type
`F_UNLCK`, and `lock` and `unlock` hand exactly these requests to `fcntl`. -/
theorem lock_request_exclusive_whole_file (pid : Nat) :
    ((lockRequest pid).2.Type_ = syscall.F_WRLCK ∧
        (lockRequest pid).2.Type_ ≠ syscall.F_RDLCK ∧
        (lockRequest pid).2.Type_ ≠ syscall.F_UNLCK) ∧
      ((lockRequest pid).2.Whence = ioSeekStart ∧ (lockRequest pid).2.Start = 0 ∧
        (lockRequest pid).2.Len = 0) ∧
      ((lockRequest pid).1 = syscall.F_SETLK ∧ (lockRequest pid).1 ≠ syscall.F_SETLKW) ∧
      ((unlockRequest pid).1 = (lockRequest pid).1 ∧
        (unlockRequest pid).2.Whence = (lockRequest pid).2.Whence ∧
        (unlockRequest pid).2.Start = (lockRequest pid).2.Start ∧
        (unlockRequest pid).2.Len = (lockRequest pid).2.Len ∧
        (unlockRequest pid).2.Type_ = syscall.F_UNLCK) ∧
      (∀ fault f w, lock fault pid f w
          = syscallFcntlFlock fault pid f syscall.F_SETLK
              ⟨syscall.F_WRLCK, ioSeekStart, 0, 0, int32 pid⟩ w) ∧
      (∀ fault f w, unlock fault pid f w
          = syscallFcntlFlock fault pid f syscall.F_SETLK
              ⟨syscall.F_UNLCK, ioSeekStart, 0, 0, int32 pid⟩ w) := by
  refine ⟨?_, ?_, ?_, ?_, ?_, ?_⟩
  · rw [lockRequest_eq]; simp [syscall.F_WRLCK, syscall.F_RDLCK, syscall.F_UNLCK]
  · rw [lockRequest_eq]; exact ⟨rfl, rfl, rfl⟩
  · rw [lockRequest_eq]; simp [syscall.F_SETLK, syscall.F_SETLKW]
  · rw [lockRequest_eq, unlockRequest_eq]; exact ⟨rfl, rfl, rfl, rfl, rfl⟩
  · intro fault f w; simp only [lock, lockRequest_eq]
  · intro fault f w; simp only [unlock, unlockRequest_eq]


end Filelock
